import Mathlib

set_option maxHeartbeats 1000000

/-
Shallow embedding of the storage-app backend (the latest revision of
server.js, found at src/unnamed/part_002).  JS numbers that hold
quantities and prices are modelled as Int; JS strings as String;
nullable fields as Option.  A request body field that may be absent is
an Option, with none meaning the key was not sent; a field whose JS
code treats the empty string as absent (falsy) is a plain String with
the empty string standing for absent, mirroring the truthiness test in
the code.  Every endpoint is a pure function from the loaded data
document (plus the clock values the handler samples) to the new
document paired with the response; on every error path the handler
returns before the first mutation, so the returned document is the
input one.
-/

structure Branch where
  id : String
  name : String
deriving Repr, DecidableEq

structure User where
  id : String
  name : String
  role : String
  password : String
  branchId : Option String
deriving Repr, DecidableEq

structure Item where
  id : String
  name : String
  nameEn : String
  nameAr : String
  branchId : String
  minQty : Int
  baseQty : Int
  unitCost : Int
deriving Repr, DecidableEq

structure Movement where
  id : String
  itemId : String
  type : String
  qty : Int
  userId : String
  branchId : String
  note : String
  createdAt : String
deriving Repr, DecidableEq

structure Request where
  id : String
  itemId : String
  qty : Int
  fromBranchId : String
  toBranchId : String
  createdByUserId : String
  note : String
  priority : String
  urgentNote : String
  imageData : String
  status : String
  driverUserId : Option String
  assignedAt : Option String
  assignedByUserId : Option String
  deliveryEta : Option String
  deliveryEtaLabel : String
  createdAt : String
  deliveredAt : Option String
  receivedByUserId : Option String
deriving Repr, DecidableEq

structure Budget where
  id : String
  branchId : String
  month : String
  planned : Int
deriving Repr, DecidableEq

structure Vehicle where
  id : String
  name : String
  plate : String
deriving Repr, DecidableEq

structure VehicleReminder where
  id : String
  vehicleId : String
  type : String
  dueDate : Option String
  dueOdometer : Option Int
  note : String
  status : String
  createdAt : String
  doneAt : Option String
deriving Repr, DecidableEq

structure CarAssignment where
  id : String
  vehicleId : String
  driverUserId : String
  assignedByUserId : String
  note : String
  assignedAt : String
deriving Repr, DecidableEq

structure CarMaintenance where
  id : String
  vehicleId : String
  driverUserId : String
  maintenanceDate : String
  nextMaintenanceDate : Option String
  price : Int
  invoiceNo : String
  place : String
  storeName : String
  note : String
  createdAt : String
deriving Repr, DecidableEq

/- The whole persisted JSON document (loadData defaults every collection
to the empty list, so all collections are total here).  The repository
never writes a trip record nor gives trips a schema, so trips are kept
abstract as raw strings. -/
structure DataState where
  branches : List Branch
  users : List User
  items : List Item
  movements : List Movement
  budgets : List Budget
  requests : List Request
  trips : List String
  vehicles : List Vehicle
  vehicleReminders : List VehicleReminder
  carAssignments : List CarAssignment
  carMaintenances : List CarMaintenance
deriving Repr, DecidableEq

/- The error taxonomy of the spec (section 7); each HTTP error return of
the code is mapped to the bucket the spec assigns to its message. -/
inductive ApiErr where
  | validation : String → ApiErr
  | notFound : String → ApiErr
  | forbidden : String → ApiErr
  | conflict : String → ApiErr
  | insufficientStock : String → ApiErr
deriving Repr, DecidableEq

def findUserById (s : DataState) (userId : String) : Option User :=
  s.users.find? (fun u => u.id == userId)

/- requireRole(user, roles) = user && roles.includes(user.role) -/
def requireRole (u : Option User) (roles : List String) : Bool :=
  match u with
  | none => false
  | some user => roles.contains user.role

/- In-place mutation of the first array element matching a predicate
(the JS handlers mutate the object returned by Array.prototype.find). -/
def updateFirst {α : Type} (p : α → Bool) (f : α → α) : List α → List α
  | [] => []
  | x :: xs => if p x then f x :: xs else x :: updateFirst p f xs

/- splice(idx, 1) at idx = findIndex p -/
def removeFirst {α : Type} (p : α → Bool) : List α → List α
  | [] => []
  | x :: xs => if p x then xs else x :: removeFirst p xs

/- ---------- POST /api/movements ---------- -/

structure MovementInput where
  itemId : String
  type : String
  qty : Int
  userId : String
  note : String
deriving Repr, DecidableEq

/- Stock adjustment of the direct-movement endpoint: IN adds, OUT
subtracts clamping at zero, any other type string leaves stock as is. -/
def movementAdjust (ty : String) (qty : Int) (it : Item) : Item :=
  if ty == "IN" then { it with baseQty := it.baseQty + qty }
  else if ty == "OUT" then { it with baseQty := max 0 (it.baseQty - qty) }
  else it

/- the ledger entry the movements endpoint builds; its branchId is
copied from the item record that was found -/
def directMovement (now : Nat) (nowIso : String) (inp : MovementInput) (branchId : String) :
    Movement :=
  { id := "MOV-" ++ toString now
    itemId := inp.itemId
    type := inp.type
    qty := inp.qty
    userId := inp.userId
    branchId := branchId
    note := inp.note
    createdAt := nowIso }

def postMovements (s : DataState) (now : Nat) (nowIso : String) (inp : MovementInput) :
    DataState × Except ApiErr Movement :=
  if inp.itemId == "" || inp.type == "" || inp.qty == 0 || inp.userId == "" then
    (s, Except.error (ApiErr.validation "itemId, type, qty, userId are required"))
  else
    match findUserById s inp.userId with
    | none => (s, Except.error (ApiErr.notFound "User not found"))
    | some user =>
      if !(requireRole (some user) ["admin", "manager"]) then
        (s, Except.error (ApiErr.forbidden "Only admin/manager can record movements"))
      else
        match s.items.find? (fun it => it.id == inp.itemId) with
        | none => (s, Except.error (ApiErr.notFound "Item not found"))
        | some item =>
          let movement : Movement := directMovement now nowIso inp item.branchId
          ({ s with
              items := updateFirst (fun it => it.id == inp.itemId)
                (movementAdjust inp.type inp.qty) s.items
              movements := s.movements ++ [movement] },
           Except.ok movement)

/- ---------- POST /api/requests/:id/deliver ---------- -/

structure DeliverInput where
  id : String
  userId : String
  driverUserId : String
deriving Repr, DecidableEq

def deliverActorId (inp : DeliverInput) : String :=
  if inp.userId == "" then inp.driverUserId else inp.userId

def allowedDeliverRoles : List String := ["staff", "supervisor", "admin", "manager"]

def deliverUpdateRequest (actorUserId nowIso : String) (r : Request) : Request :=
  { r with
      status := "delivered"
      receivedByUserId := some actorUserId
      deliveredAt := some nowIso }

/- it.id === request.itemId && it.branchId === request.fromBranchId -/
def pFrom (r : Request) : Item → Bool :=
  fun it => it.id == r.itemId && it.branchId == r.fromBranchId

/- it.id === request.itemId && it.branchId === request.toBranchId -/
def pTo (r : Request) : Item → Bool :=
  fun it => it.id == r.itemId && it.branchId == r.toBranchId

def subQty (q : Int) (it : Item) : Item := { it with baseQty := it.baseQty - q }

def addQty (q : Int) (it : Item) : Item := { it with baseQty := it.baseQty + q }

/- the destination record pushed when the destination branch has no
record for the item yet; it is created with baseQty 0 and immediately
incremented by qty through the retained object reference -/
def newDestItem (r : Request) (storageItem : Item) : Item :=
  { id := storageItem.id
    name := storageItem.name
    nameEn := if storageItem.nameEn == "" then storageItem.name else storageItem.nameEn
    nameAr := storageItem.nameAr
    branchId := r.toBranchId
    minQty := 0
    baseQty := 0 + r.qty
    unitCost := storageItem.unitCost }

def deliver (s : DataState) (now : Nat) (nowIso : String) (inp : DeliverInput) :
    DataState × Except ApiErr (Request × Movement × Movement) :=
  if deliverActorId inp == "" then
    (s, Except.error (ApiErr.validation "userId required"))
  else
    match findUserById s (deliverActorId inp) with
    | none => (s, Except.error (ApiErr.notFound "User not found"))
    | some actor =>
      if !(requireRole (some actor) allowedDeliverRoles) then
        (s, Except.error (ApiErr.forbidden "Only staff/supervisor/admin/manager can confirm receipt"))
      else
        match s.requests.find? (fun r => r.id == inp.id) with
        | none => (s, Except.error (ApiErr.notFound "Request not found"))
        | some request =>
          if request.status == "delivered" then
            (s, Except.error (ApiErr.conflict "Request already delivered"))
          else if ["staff", "supervisor"].contains actor.role
              && !(actor.branchId == some request.toBranchId) then
            (s, Except.error (ApiErr.forbidden "Only staff from the destination branch can confirm receipt"))
          else
            match s.items.find? (pFrom request) with
            | none => (s, Except.error (ApiErr.notFound "Item not found in storage branch"))
            | some storageItem =>
              if storageItem.baseQty < request.qty then
                (s, Except.error (ApiErr.insufficientStock "Not enough stock in storage to deliver"))
              else
                let outMovement : Movement :=
                  { id := "MOV-" ++ toString now
                    itemId := request.itemId
                    type := "OUT"
                    qty := request.qty
                    userId := deliverActorId inp
                    branchId := request.fromBranchId
                    note := "Delivery OUT for request " ++ request.id
                    createdAt := nowIso }
                let items1 := updateFirst (pFrom request) (subQty request.qty) s.items
                let inMovement : Movement :=
                  { id := "MOV-" ++ toString (now + 1)
                    itemId := request.itemId
                    type := "IN"
                    qty := request.qty
                    userId := deliverActorId inp
                    branchId := request.toBranchId
                    note := "Delivery IN for request " ++ request.id
                    createdAt := nowIso }
                let items2 :=
                  match items1.find? (pTo request) with
                  | some _ => updateFirst (pTo request) (addQty request.qty) items1
                  | none => items1 ++ [newDestItem request storageItem]
                ({ s with
                    items := items2
                    movements := s.movements ++ [outMovement, inMovement]
                    requests := updateFirst (fun r => r.id == inp.id)
                      (deliverUpdateRequest (deliverActorId inp) nowIso) s.requests },
                 Except.ok (deliverUpdateRequest (deliverActorId inp) nowIso request,
                            outMovement, inMovement))

/- ---------- POST /api/requests/:id/claim ---------- -/

structure ClaimInput where
  id : String
  userId : String
  deliveryEta : Option String
  deliveryEtaLabel : Option String
deriving Repr, DecidableEq

/- request.deliveryEta = deliveryEta || null, applied only when the key
was sent -/
def applyEta (cur : Option String) (supplied : Option String) : Option String :=
  match supplied with
  | none => cur
  | some v => if v == "" then none else some v

def applyEtaLabel (cur : String) (supplied : Option String) : String :=
  match supplied with
  | none => cur
  | some v => v

def claimUpdateRequest (driverId nowIso : String) (inp : ClaimInput) (r : Request) : Request :=
  { r with
      driverUserId := some driverId
      assignedAt := some nowIso
      assignedByUserId := some driverId
      status := "assigned"
      deliveryEta := applyEta r.deliveryEta inp.deliveryEta
      deliveryEtaLabel := applyEtaLabel r.deliveryEtaLabel inp.deliveryEtaLabel }

def claimRequest (s : DataState) (nowIso : String) (inp : ClaimInput) :
    DataState × Except ApiErr Request :=
  match findUserById s inp.userId with
  | none => (s, Except.error (ApiErr.notFound "User not found"))
  | some driver =>
    if !(requireRole (some driver) ["driver"]) then
      (s, Except.error (ApiErr.forbidden "Unauthorized"))
    else
      match s.requests.find? (fun r => r.id == inp.id) with
      | none => (s, Except.error (ApiErr.notFound "Request not found"))
      | some request =>
        if request.status == "delivered" then
          (s, Except.error (ApiErr.conflict "Request already delivered"))
        else if (match request.driverUserId with
                 | none => false
                 | some d => d != "" && d != driver.id) then
          (s, Except.error (ApiErr.forbidden "Request already assigned to another driver"))
        else
          ({ s with requests := updateFirst (fun r => r.id == inp.id)
                      (claimUpdateRequest driver.id nowIso inp) s.requests },
           Except.ok (claimUpdateRequest driver.id nowIso inp request))

/- ---------- DELETE /api/requests/:id ---------- -/

structure DeleteRequestInput where
  id : String
  userId : String
deriving Repr, DecidableEq

def deleteRequest (s : DataState) (inp : DeleteRequestInput) :
    DataState × Except ApiErr Unit :=
  if !(requireRole (findUserById s inp.userId) ["admin", "manager"]) then
    (s, Except.error (ApiErr.forbidden "Only admin/manager can delete requests"))
  else
    match s.requests.find? (fun r => r.id == inp.id) with
    | none => (s, Except.error (ApiErr.notFound "Request not found"))
    | some request =>
      if !(request.status == "pending") then
        (s, Except.error (ApiErr.conflict "Only pending requests can be deleted"))
      else
        ({ s with requests := removeFirst (fun r => r.id == inp.id) s.requests },
         Except.ok ())

/- ---------- GET /api/state ---------- -/

structure PublicUser where
  id : String
  name : String
  role : String
  branchId : Option String
deriving Repr, DecidableEq

/- ({ password, ...u }) => u : every field of the user except password -/
def scrubUser (u : User) : PublicUser :=
  { id := u.id, name := u.name, role := u.role, branchId := u.branchId }

structure StateResponse where
  branches : List Branch
  users : List PublicUser
  items : List Item
  movements : List Movement
  budgets : List Budget
  requests : List Request
  trips : List String
  vehicles : List Vehicle
  vehicleReminders : List VehicleReminder
  carAssignments : List CarAssignment
  carMaintenances : List CarMaintenance
deriving Repr, DecidableEq

def stateResponse (s : DataState) : StateResponse :=
  { branches := s.branches
    users := s.users.map scrubUser
    items := s.items
    movements := s.movements
    budgets := s.budgets
    requests := s.requests
    trips := s.trips
    vehicles := s.vehicles
    vehicleReminders := s.vehicleReminders
    carAssignments := s.carAssignments
    carMaintenances := s.carMaintenances }

/- ---------- operation sequences over the embedded mutating endpoints ---------- -/

inductive Op where
  | move : Nat → String → MovementInput → Op
  | deliverOp : Nat → String → DeliverInput → Op
  | claimOp : String → ClaimInput → Op
  | deleteOp : DeleteRequestInput → Op
deriving Repr, DecidableEq

def step (s : DataState) (op : Op) : DataState :=
  match op with
  | Op.move now iso inp => (postMovements s now iso inp).1
  | Op.deliverOp now iso inp => (deliver s now iso inp).1
  | Op.claimOp iso inp => (claimRequest s iso inp).1
  | Op.deleteOp inp => (deleteRequest s inp).1

def run (s : DataState) (ops : List Op) : DataState :=
  ops.foldl step s

/- stock reading used by the specification statements: the baseQty of
the first record matching a predicate (0 when there is none) -/
def stockIn (l : List Item) (p : Item → Bool) : Int :=
  match l.find? p with
  | none => 0
  | some it => it.baseQty

/- the stock of one item id at one branch: the first record with that
id in that branch -/
def stockOf (s : DataState) (itemId branchId : String) : Int :=
  stockIn s.items (fun it => it.id == itemId && it.branchId == branchId)

/- ---------- generic lemmas about updateFirst and removeFirst ---------- -/

theorem mem_updateFirst {α : Type} {p : α → Bool} {f : α → α} {l : List α} {y : α}
    (hy : y ∈ updateFirst p f l) :
    y ∈ l ∨ ∃ x, l.find? p = some x ∧ y = f x := by
  induction l with
  | nil => simp [updateFirst] at hy
  | cons a as ih =>
    by_cases hpa : p a
    · rw [updateFirst, if_pos hpa] at hy
      rcases List.mem_cons.mp hy with h | h
      · exact Or.inr ⟨a, List.find?_cons_of_pos _ hpa, h⟩
      · exact Or.inl (List.mem_cons_of_mem _ h)
    · rw [updateFirst, if_neg hpa] at hy
      rcases List.mem_cons.mp hy with h | h
      · exact Or.inl (h ▸ List.mem_cons_self _ _)
      · rcases ih h with h2 | ⟨x, hx1, hx2⟩
        · exact Or.inl (List.mem_cons_of_mem _ h2)
        · exact Or.inr ⟨x, by rw [List.find?_cons_of_neg _ hpa]; exact hx1, hx2⟩

theorem mem_removeFirst {α : Type} {p : α → Bool} {l : List α} {y : α}
    (hy : y ∈ removeFirst p l) : y ∈ l := by
  induction l with
  | nil => simp [removeFirst] at hy
  | cons a as ih =>
    by_cases hpa : p a
    · rw [removeFirst, if_pos hpa] at hy
      exact List.mem_cons_of_mem _ hy
    · rw [removeFirst, if_neg hpa] at hy
      rcases List.mem_cons.mp hy with h | h
      · exact h ▸ List.mem_cons_self _ _
      · exact List.mem_cons_of_mem _ (ih h)

theorem updateFirst_eq_of_find?_none {α : Type} {p : α → Bool} {f : α → α} {l : List α}
    (h : l.find? p = none) : updateFirst p f l = l := by
  induction l with
  | nil => rfl
  | cons a as ih =>
    have hpa : ¬ p a := by
      intro hp
      rw [List.find?_cons_of_pos _ hp] at h
      cases h
    rw [List.find?_cons_of_neg _ hpa] at h
    rw [updateFirst, if_neg hpa, ih h]

theorem find?_updateFirst_self {α : Type} {p : α → Bool} {f : α → α}
    (hpf : ∀ x, p (f x) = p x) (l : List α) :
    (updateFirst p f l).find? p = Option.map f (l.find? p) := by
  induction l with
  | nil => rfl
  | cons a as ih =>
    by_cases hpa : p a
    · have hpfa : p (f a) := by rw [hpf]; exact hpa
      rw [updateFirst, if_pos hpa, List.find?_cons_of_pos _ hpfa,
        List.find?_cons_of_pos _ hpa]
      rfl
    · rw [updateFirst, if_neg hpa]
      rw [List.find?_cons_of_neg _ hpa, List.find?_cons_of_neg _ hpa]
      exact ih

theorem find?_updateFirst_disjoint {α : Type} {p q : α → Bool} {f : α → α}
    (hq : ∀ x, q (f x) = q x) (hdisj : ∀ x, p x → ¬ q x) (l : List α) :
    (updateFirst p f l).find? q = l.find? q := by
  induction l with
  | nil => rfl
  | cons a as ih =>
    by_cases hpa : p a
    · have hqa : ¬ q a := hdisj a hpa
      have hqfa : ¬ q (f a) := by rw [hq]; exact hqa
      rw [updateFirst, if_pos hpa, List.find?_cons_of_neg _ hqfa,
        List.find?_cons_of_neg _ hqa]
    · rw [updateFirst, if_neg hpa]
      by_cases hqa : q a
      · rw [List.find?_cons_of_pos _ hqa, List.find?_cons_of_pos _ hqa]
      · rw [List.find?_cons_of_neg _ hqa, List.find?_cons_of_neg _ hqa]
        exact ih

theorem find?_updateFirst_of_eq_some {α : Type} {p q : α → Bool} {f : α → α}
    (hq : ∀ x, q (f x) = q x) {l : List α} {y : α}
    (h : (updateFirst p f l).find? q = some y) :
    l.find? q = some y ∨ ∃ x, l.find? p = some x ∧ l.find? q = some x ∧ y = f x := by
  induction l with
  | nil => cases h
  | cons a as ih =>
    by_cases hpa : p a
    · rw [updateFirst, if_pos hpa] at h
      by_cases hqa : q a
      · have hqfa : q (f a) := by rw [hq]; exact hqa
        rw [List.find?_cons_of_pos _ hqfa] at h
        have hy : y = f a := (Option.some.inj h).symm
        exact Or.inr ⟨a, List.find?_cons_of_pos _ hpa, List.find?_cons_of_pos _ hqa, hy⟩
      · have hqfa : ¬ q (f a) := by rw [hq]; exact hqa
        rw [List.find?_cons_of_neg _ hqfa] at h
        exact Or.inl (by rw [List.find?_cons_of_neg _ hqa]; exact h)
    · rw [updateFirst, if_neg hpa] at h
      by_cases hqa : q a
      · rw [List.find?_cons_of_pos _ hqa] at h
        exact Or.inl (by rw [List.find?_cons_of_pos _ hqa]; exact h)
      · rw [List.find?_cons_of_neg _ hqa] at h
        rcases ih h with h1 | ⟨x, hx1, hx2, hx3⟩
        · exact Or.inl (by rw [List.find?_cons_of_neg _ hqa]; exact h1)
        · exact Or.inr ⟨x, by rw [List.find?_cons_of_neg _ hpa]; exact hx1,
            by rw [List.find?_cons_of_neg _ hqa]; exact hx2, hx3⟩

theorem updateFirst_updateFirst {α : Type} {p : α → Bool} {f g : α → α}
    (hpf : ∀ x, p (f x) = p x) (l : List α) :
    updateFirst p g (updateFirst p f l) = updateFirst p (fun x => g (f x)) l := by
  induction l with
  | nil => rfl
  | cons a as ih =>
    by_cases hpa : p a
    · have hpfa : p (f a) := by rw [hpf]; exact hpa
      rw [updateFirst, if_pos hpa, updateFirst, if_pos hpfa, updateFirst, if_pos hpa]
    · rw [updateFirst, if_neg hpa, updateFirst, if_neg hpa, updateFirst, if_neg hpa, ih]

theorem postMovements_requests (s : DataState) (n : Nat) (i : String) (inp : MovementInput) :
    (postMovements s n i inp).1.requests = s.requests := by
  unfold postMovements
  repeat' split
  all_goals rfl

theorem postMovements_items (s : DataState) (n : Nat) (i : String) (inp : MovementInput) :
    (postMovements s n i inp).1.items = s.items ∨
    (postMovements s n i inp).1.items =
      updateFirst (fun it => it.id == inp.itemId) (movementAdjust inp.type inp.qty) s.items := by
  unfold postMovements
  repeat' split
  all_goals simp

theorem claimRequest_items (s : DataState) (iso : String) (inp : ClaimInput) :
    (claimRequest s iso inp).1.items = s.items := by
  unfold claimRequest
  repeat' split
  all_goals rfl

theorem claimRequest_requests (s : DataState) (iso : String) (inp : ClaimInput) :
    (claimRequest s iso inp).1.requests = s.requests ∨
    ∃ d x, findUserById s inp.userId = some d ∧
      s.requests.find? (fun t => t.id == inp.id) = some x ∧
      (x.status == "delivered") = false ∧
      (claimRequest s iso inp).1.requests =
        updateFirst (fun t => t.id == inp.id) (claimUpdateRequest d.id iso inp) s.requests := by
  unfold claimRequest
  repeat' split
  all_goals try (left; rfl)
  rename_i u d hd hrole xo x hx hst hdrv
  right
  exact ⟨d, x, hd, hx, by simpa using hst, rfl⟩

theorem deleteRequest_items (s : DataState) (inp : DeleteRequestInput) :
    (deleteRequest s inp).1.items = s.items := by
  unfold deleteRequest
  repeat' split
  all_goals rfl

theorem deleteRequest_requests (s : DataState) (inp : DeleteRequestInput) :
    (deleteRequest s inp).1.requests = s.requests ∨
    (deleteRequest s inp).1.requests = removeFirst (fun t => t.id == inp.id) s.requests := by
  unfold deleteRequest
  repeat' split
  all_goals simp

theorem deliver_requests (s : DataState) (n : Nat) (i : String) (inp : DeliverInput) :
    (deliver s n i inp).1.requests = s.requests ∨
    (deliver s n i inp).1.requests =
      updateFirst (fun t => t.id == inp.id)
        (deliverUpdateRequest (deliverActorId inp) i) s.requests := by
  unfold deliver
  repeat' split
  all_goals simp

theorem deliver_items (s : DataState) (n : Nat) (i : String) (inp : DeliverInput) :
    (deliver s n i inp).1.items = s.items ∨
    ∃ r storageItem, s.requests.find? (fun t => t.id == inp.id) = some r ∧
      s.items.find? (pFrom r) = some storageItem ∧
      (storageItem.baseQty < r.qty → False) ∧
      ((deliver s n i inp).1.items =
         updateFirst (pTo r) (addQty r.qty) (updateFirst (pFrom r) (subQty r.qty) s.items) ∨
       (deliver s n i inp).1.items =
         updateFirst (pFrom r) (subQty r.qty) s.items ++ [newDestItem r storageItem]) := by
  unfold deliver
  repeat' split
  all_goals try (left; rfl)
  rename_i hval uo a hu hrole ro r hr hdel hbr io sit hsit hq
  right
  dsimp only
  split
  · exact ⟨r, sit, hr, hsit, fun hlt => hq (by simpa using hlt), Or.inl rfl⟩
  · exact ⟨r, sit, hr, hsit, fun hlt => hq (by simpa using hlt), Or.inr rfl⟩

/- ---------- the non-negative-stock invariant ---------- -/

def itemsNonNeg (s : DataState) : Prop := ∀ it ∈ s.items, 0 ≤ it.baseQty

def requestsQtyPos (s : DataState) : Prop := ∀ r ∈ s.requests, 0 < r.qty

/- the positivity restriction on the quantities an operation carries -/
def opMoveQtyPos : Op → Bool
  | Op.move _ _ inp => decide (0 < inp.qty)
  | _ => true

theorem requestsQtyPos_step (s : DataState) (op : Op) (h : requestsQtyPos s) :
    requestsQtyPos (step s op) := by
  cases op with
  | move n i inp =>
    intro r hr
    simp only [step] at hr
    rw [postMovements_requests] at hr
    exact h r hr
  | deliverOp n i inp =>
    intro r hr
    simp only [step] at hr
    rcases deliver_requests s n i inp with he | he
    · rw [he] at hr; exact h r hr
    · rw [he] at hr
      rcases mem_updateFirst hr with hmem | ⟨x, hx1, hx2⟩
      · exact h r hmem
      · have hx : x ∈ s.requests := List.mem_of_find?_eq_some hx1
        have := h x hx
        rw [hx2]
        exact this
  | claimOp i inp =>
    intro r hr
    simp only [step] at hr
    rcases claimRequest_requests s i inp with he | ⟨d, x0, _, _, _, he⟩
    · rw [he] at hr; exact h r hr
    · rw [he] at hr
      rcases mem_updateFirst hr with hmem | ⟨x, hx1, hx2⟩
      · exact h r hmem
      · have hx : x ∈ s.requests := List.mem_of_find?_eq_some hx1
        have := h x hx
        rw [hx2]
        exact this
  | deleteOp inp =>
    intro r hr
    simp only [step] at hr
    rcases deleteRequest_requests s inp with he | he
    · rw [he] at hr; exact h r hr
    · rw [he] at hr
      exact h r (mem_removeFirst hr)

theorem itemsNonNeg_step (s : DataState) (op : Op) (hi : itemsNonNeg s)
    (hrq : requestsQtyPos s) (hq : opMoveQtyPos op = true) :
    itemsNonNeg (step s op) := by
  cases op with
  | move n i inp =>
    have hqty : 0 < inp.qty := of_decide_eq_true hq
    intro y hy
    simp only [step] at hy
    rcases postMovements_items s n i inp with he | he
    · rw [he] at hy; exact hi y hy
    · rw [he] at hy
      rcases mem_updateFirst hy with hmem | ⟨x, hx1, hx2⟩
      · exact hi y hmem
      · have hx : x ∈ s.items := List.mem_of_find?_eq_some hx1
        have hb := hi x hx
        rw [hx2]
        unfold movementAdjust
        by_cases h1 : (inp.type == "IN") = true
        · rw [if_pos h1]; dsimp only; omega
        · rw [if_neg h1]
          by_cases h2 : (inp.type == "OUT") = true
          · rw [if_pos h2]; exact le_max_left 0 _
          · rw [if_neg h2]; exact hb
  | deliverOp n i inp =>
    intro y hy
    simp only [step] at hy
    rcases deliver_items s n i inp with he | ⟨r, sit, hfr, hfs, hnq, hcase⟩
    · rw [he] at hy; exact hi y hy
    · have hrmem : r ∈ s.requests := List.mem_of_find?_eq_some hfr
      have hqty : 0 < r.qty := hrq r hrmem
      have hsub : ∀ z, z ∈ updateFirst (pFrom r) (subQty r.qty) s.items → 0 ≤ z.baseQty := by
        intro z hz
        rcases mem_updateFirst hz with hmem | ⟨x, hx1, hx2⟩
        · exact hi z hmem
        · rw [hfs] at hx1
          cases hx1
          rw [hx2]
          have : ¬ sit.baseQty < r.qty := fun hlt => hnq hlt
          unfold subQty
          dsimp only
          omega
      rcases hcase with he | he
      · rw [he] at hy
        rcases mem_updateFirst hy with hmem | ⟨x, hx1, hx2⟩
        · exact hsub y hmem
        · have hx : x ∈ updateFirst (pFrom r) (subQty r.qty) s.items :=
            List.mem_of_find?_eq_some hx1
          have hb := hsub x hx
          rw [hx2]
          unfold addQty
          dsimp only
          omega
      · rw [he] at hy
        rcases List.mem_append.mp hy with hmem | hmem
        · exact hsub y hmem
        · have : y = newDestItem r sit := by simpa using hmem
          rw [this]
          unfold newDestItem
          dsimp only
          omega
  | claimOp i inp =>
    intro y hy
    simp only [step] at hy
    rw [claimRequest_items] at hy
    exact hi y hy
  | deleteOp inp =>
    intro y hy
    simp only [step] at hy
    rw [deleteRequest_items] at hy
    exact hi y hy

theorem nonneg_invariant_run (ops : List Op) (s : DataState) (hi : itemsNonNeg s)
    (hrq : requestsQtyPos s) (hops : ∀ op ∈ ops, opMoveQtyPos op = true) :
    itemsNonNeg (run s ops) ∧ requestsQtyPos (run s ops) := by
  induction ops generalizing s with
  | nil => exact ⟨hi, hrq⟩
  | cons op ops ih =>
    have hop : opMoveQtyPos op = true := hops op (List.mem_cons_self _ _)
    have hrest : ∀ o ∈ ops, opMoveQtyPos o = true :=
      fun o ho => hops o (List.mem_cons_of_mem _ ho)
    have h1 := itemsNonNeg_step s op hi hrq hop
    have h2 := requestsQtyPos_step s op hrq
    exact ih (step s op) h1 h2 hrest

/- ---------- claim C2 ---------- -/

def c2cexUser : User :=
  { id := "u1", name := "Admin", role := "admin", password := "pw", branchId := none }

def c2cexItem : Item :=
  { id := "ITEM-001", name := "Widget", nameEn := "Widget", nameAr := "",
    branchId := "B001", minQty := 0, baseQty := 3, unitCost := 1 }

def c2cexState : DataState :=
  { branches := [], users := [c2cexUser], items := [c2cexItem], movements := [],
    budgets := [], requests := [], trips := [], vehicles := [],
    vehicleReminders := [], carAssignments := [], carMaintenances := [] }

def c2cexInput : MovementInput :=
  { itemId := "ITEM-001", type := "IN", qty := -5, userId := "u1", note := "" }

/-- Claim C2 counterexample: the movements endpoint only rejects a falsy
qty, so it accepts qty = -5; an IN movement with that qty on an item
holding 3 drives baseQty to -2, violating the never-negative claim. -/
theorem claim_C2_counterexample :
    (∃ mv, (postMovements c2cexState 1 "t1" c2cexInput).2 = Except.ok mv) ∧
    ∃ it ∈ (postMovements c2cexState 1 "t1" c2cexInput).1.items, it.baseQty < 0 :=
  ⟨⟨_, rfl⟩, by decide⟩

/-- Claim C2 (amended): starting from a document whose items all have
non-negative baseQty and whose requests all carry positive qty, any
sequence of direct IN/OUT movements and confirm/deliver calls (and also
claim and delete calls) whose direct-movement quantities are positive
keeps every baseQty non-negative: a direct OUT clamps at zero and a
deliver is rejected before mutating when source stock is short.  The
positivity restriction is forced by the counterexample: the endpoints
as written also accept negative quantities, which break the invariant. -/
theorem claim_C2_amended (ops : List Op) (s : DataState) (hi : itemsNonNeg s)
    (hrq : requestsQtyPos s) (hops : ∀ op ∈ ops, opMoveQtyPos op = true) :
    itemsNonNeg (run s ops) :=
  (nonneg_invariant_run ops s hi hrq hops).1

def c2wUserStaff : User :=
  { id := "u2", name := "Staff", role := "staff", password := "pw", branchId := some "B002" }

def c2wRequest : Request :=
  { id := "REQ-1", itemId := "ITEM-001", qty := 5, fromBranchId := "B001",
    toBranchId := "B002", createdByUserId := "u2", note := "", priority := "normal",
    urgentNote := "", imageData := "", status := "pending", driverUserId := none,
    assignedAt := none, assignedByUserId := none, deliveryEta := none,
    deliveryEtaLabel := "", createdAt := "t0", deliveredAt := none,
    receivedByUserId := none }

def c2wItem : Item :=
  { id := "ITEM-001", name := "Widget", nameEn := "Widget", nameAr := "",
    branchId := "B001", minQty := 0, baseQty := 10, unitCost := 1 }

def c2wState : DataState :=
  { branches := [], users := [c2cexUser, c2wUserStaff], items := [c2wItem],
    movements := [], budgets := [], requests := [c2wRequest], trips := [],
    vehicles := [], vehicleReminders := [], carAssignments := [], carMaintenances := [] }

def c2wOps : List Op :=
  [Op.move 1 "t1" { itemId := "ITEM-001", type := "IN", qty := 2, userId := "u1", note := "" },
   Op.deliverOp 2 "t2" { id := "REQ-1", userId := "u2", driverUserId := "" },
   Op.move 3 "t3" { itemId := "ITEM-001", type := "OUT", qty := 100, userId := "u1", note := "" }]

/-- Claim C2 witness: a concrete run mixing a direct IN, a successful
deliver and an over-large direct OUT keeps all stock non-negative. -/
theorem claim_C2_witness :
    itemsNonNeg c2wState ∧ requestsQtyPos c2wState ∧
    (∀ op ∈ c2wOps, opMoveQtyPos op = true) ∧ itemsNonNeg (run c2wState c2wOps) :=
  ⟨by unfold itemsNonNeg; decide, by unfold requestsQtyPos; decide, by decide,
   claim_C2_amended c2wOps c2wState (by unfold itemsNonNeg; decide)
     (by unfold requestsQtyPos; decide) (by decide)⟩

theorem movementAdjust_id (ty : String) (q : Int) (it : Item) :
    (movementAdjust ty q it).id = it.id := by
  unfold movementAdjust
  repeat' split
  all_goals rfl

/-- Claim C7: a direct movement (outside the request flow) recorded by
an admin or manager adjusts stock immediately on the first record whose
id matches: IN increases baseQty by qty, OUT decreases it by qty but
clamps the result at zero instead of rejecting, and in both cases
exactly one Movement entry is appended to the ledger. -/
theorem claim_C7_direct_movement (s : DataState) (now : Nat) (iso : String)
    (inp : MovementInput) (u : User) (it : Item)
    (h1 : inp.itemId ≠ "") (h2 : inp.qty ≠ 0) (h3 : inp.userId ≠ "")
    (hty : inp.type = "IN" ∨ inp.type = "OUT")
    (hu : findUserById s inp.userId = some u)
    (hrole : u.role = "admin" ∨ u.role = "manager")
    (hit : s.items.find? (fun x => x.id == inp.itemId) = some it) :
    ∃ mv, (postMovements s now iso inp).2 = Except.ok mv ∧
      (postMovements s now iso inp).1.movements = s.movements ++ [mv] ∧
      (postMovements s now iso inp).1.items =
        updateFirst (fun x => x.id == inp.itemId) (movementAdjust inp.type inp.qty) s.items ∧
      (postMovements s now iso inp).1.items.find? (fun x => x.id == inp.itemId) =
        some (movementAdjust inp.type inp.qty it) ∧
      (inp.type = "IN" → (movementAdjust inp.type inp.qty it).baseQty = it.baseQty + inp.qty) ∧
      (inp.type = "OUT" → (movementAdjust inp.type inp.qty it).baseQty = max 0 (it.baseQty - inp.qty)) := by
  have hty0 : inp.type ≠ "" := by rcases hty with h | h <;> simp [h]
  have hval : (inp.itemId == "" || inp.type == "" || inp.qty == 0 || inp.userId == "") = false := by
    simp [h1, h2, h3, hty0]
  have hrr : (!requireRole (some u) ["admin", "manager"]) = false := by
    rcases hrole with h | h <;> simp [requireRole, h, List.contains]
  have hpres : ∀ x : Item, ((movementAdjust inp.type inp.qty x).id == inp.itemId) = (x.id == inp.itemId) := by
    intro x
    rw [movementAdjust_id]
  refine ⟨directMovement now iso inp it.branchId, ?_, ?_, ?_, ?_, ?_, ?_⟩
  · simp [postMovements, hval, hu, hrr, hit]
  · simp [postMovements, hval, hu, hrr, hit]
  · simp [postMovements, hval, hu, hrr, hit]
  · simp [postMovements, hval, hu, hrr, hit]
    rw [find?_updateFirst_self hpres, hit]
    rfl
  · intro h
    rw [h]
    rfl
  · intro h
    rw [h]
    rfl

/-- Claim C9: on any successful direct-movement call the stock record
adjusted is the first item in the items collection whose id equals the
given itemId, regardless of branch (the endpoint has no branch
parameter), and the recorded Movement copies its branchId from that
first-matching record. -/
theorem claim_C9_first_match (s : DataState) (now : Nat) (iso : String)
    (inp : MovementInput) (mv : Movement)
    (h : (postMovements s now iso inp).2 = Except.ok mv) :
    ∃ it, s.items.find? (fun x => x.id == inp.itemId) = some it ∧
      mv.branchId = it.branchId ∧
      (postMovements s now iso inp).1.items =
        updateFirst (fun x => x.id == inp.itemId) (movementAdjust inp.type inp.qty) s.items ∧
      (postMovements s now iso inp).1.movements = s.movements ++ [mv] := by
  unfold postMovements at h
  repeat' split at h
  · exact absurd h (by simp)
  · exact absurd h (by simp)
  · exact absurd h (by simp)
  · exact absurd h (by simp)
  rename_i hval uo u hu hrole io it hit
  have hmv : mv = directMovement now iso inp it.branchId := by
    have h2 := h
    simp at h2
    exact h2.symm
  have hval2 : (inp.itemId == "" || inp.type == "" || inp.qty == 0 || inp.userId == "") = false := by
    simpa using hval
  have hrr : (!requireRole (some u) ["admin", "manager"]) = false := by
    simpa using hrole
  refine ⟨it, hit, ?_, ?_, ?_⟩
  · rw [hmv]
    rfl
  · simp [postMovements, hval2, hu, hrr, hit]
  · simp [postMovements, hval2, hu, hrr, hit, hmv]

def c7wUser : User :=
  { id := "u1", name := "Admin", role := "admin", password := "pw", branchId := none }

def c7wItem : Item :=
  { id := "ITEM-001", name := "Widget", nameEn := "Widget", nameAr := "",
    branchId := "B001", minQty := 0, baseQty := 10, unitCost := 1 }

def c7wState : DataState :=
  { branches := [], users := [c7wUser], items := [c7wItem], movements := [],
    budgets := [], requests := [], trips := [], vehicles := [],
    vehicleReminders := [], carAssignments := [], carMaintenances := [] }

def c7wInput : MovementInput :=
  { itemId := "ITEM-001", type := "OUT", qty := 100, userId := "u1", note := "cycle count" }

/-- Claim C7 witness: an admin records an OUT of 100 against a stock of
10 and the record clamps at zero while one movement is appended. -/
theorem claim_C7_witness :
    ∃ mv, (postMovements c7wState 4 "t4" c7wInput).2 = Except.ok mv ∧
      (postMovements c7wState 4 "t4" c7wInput).1.movements = c7wState.movements ++ [mv] ∧
      (postMovements c7wState 4 "t4" c7wInput).1.items =
        updateFirst (fun x => x.id == c7wInput.itemId)
          (movementAdjust c7wInput.type c7wInput.qty) c7wState.items ∧
      (postMovements c7wState 4 "t4" c7wInput).1.items.find? (fun x => x.id == c7wInput.itemId) =
        some (movementAdjust c7wInput.type c7wInput.qty c7wItem) ∧
      (c7wInput.type = "IN" →
        (movementAdjust c7wInput.type c7wInput.qty c7wItem).baseQty = c7wItem.baseQty + c7wInput.qty) ∧
      (c7wInput.type = "OUT" →
        (movementAdjust c7wInput.type c7wInput.qty c7wItem).baseQty = max 0 (c7wItem.baseQty - c7wInput.qty)) :=
  claim_C7_direct_movement c7wState 4 "t4" c7wInput c7wUser c7wItem
    (by decide) (by decide) (by decide) (Or.inr rfl) rfl (Or.inl rfl) rfl

def c9wItemB2 : Item :=
  { id := "ITEM-001", name := "Widget", nameEn := "Widget", nameAr := "",
    branchId := "B002", minQty := 0, baseQty := 7, unitCost := 1 }

def c9wState : DataState :=
  { branches := [], users := [c7wUser], items := [c7wItem, c9wItemB2], movements := [],
    budgets := [], requests := [], trips := [], vehicles := [],
    vehicleReminders := [], carAssignments := [], carMaintenances := [] }

def c9wInput : MovementInput :=
  { itemId := "ITEM-001", type := "IN", qty := 3, userId := "u1", note := "" }

/-- Claim C9 witness: with the same item id present in branches B001 and
B002, a direct movement adjusts the first record (B001) and stamps the
movement with its branch. -/
theorem claim_C9_witness :
    ∃ it, c9wState.items.find? (fun x => x.id == c9wInput.itemId) = some it ∧
      (directMovement 5 "t5" c9wInput "B001").branchId = it.branchId ∧
      (postMovements c9wState 5 "t5" c9wInput).1.items =
        updateFirst (fun x => x.id == c9wInput.itemId)
          (movementAdjust c9wInput.type c9wInput.qty) c9wState.items ∧
      (postMovements c9wState 5 "t5" c9wInput).1.movements =
        c9wState.movements ++ [directMovement 5 "t5" c9wInput "B001"] :=
  claim_C9_first_match c9wState 5 "t5" c9wInput (directMovement 5 "t5" c9wInput "B001") rfl

/- ---------- counterexample fixtures for the deliver / claim / delete claims ---------- -/

def cexDriver : User :=
  { id := "u3", name := "Drv", role := "driver", password := "pw", branchId := none }

def cexStaffB2 : User :=
  { id := "u2", name := "Staff", role := "staff", password := "pw", branchId := some "B002" }

def c3cexRequest : Request :=
  { id := "REQ-1", itemId := "ITEM-001", qty := 5, fromBranchId := "B001",
    toBranchId := "B002", createdByUserId := "u2", note := "", priority := "normal",
    urgentNote := "", imageData := "", status := "delivered", driverUserId := some "u3",
    assignedAt := some "t0", assignedByUserId := some "u1", deliveryEta := none,
    deliveryEtaLabel := "", createdAt := "t0", deliveredAt := some "t1",
    receivedByUserId := some "u2" }

def c3cexState : DataState :=
  { branches := [], users := [cexDriver], items := [], movements := [],
    budgets := [], requests := [c3cexRequest], trips := [], vehicles := [],
    vehicleReminders := [], carAssignments := [], carMaintenances := [] }

def c3cexInput : DeliverInput := { id := "REQ-1", userId := "u3", driverUserId := "" }

/-- Claim C3 counterexample: on a request that is already delivered, a
confirm call whose actor is a driver fails with the forbidden role
error, not with the conflict error the claim promises for every call. -/
theorem claim_C3_counterexample :
    c3cexRequest.status = "delivered" ∧
    (deliver c3cexState 9 "t9" c3cexInput).2 =
      Except.error (ApiErr.forbidden "Only staff/supervisor/admin/manager can confirm receipt") ∧
    ∀ m, (deliver c3cexState 9 "t9" c3cexInput).2 ≠ Except.error (ApiErr.conflict m) := by
  refine ⟨rfl, rfl, ?_⟩
  intro m hm
  rw [show (deliver c3cexState 9 "t9" c3cexInput).2 =
      Except.error (ApiErr.forbidden "Only staff/supervisor/admin/manager can confirm receipt")
    from rfl] at hm
  simp at hm

def c4cexRequest : Request :=
  { id := "REQ-1", itemId := "ITEM-001", qty := 5, fromBranchId := "B001",
    toBranchId := "B002", createdByUserId := "u2", note := "", priority := "normal",
    urgentNote := "", imageData := "", status := "pending", driverUserId := none,
    assignedAt := none, assignedByUserId := none, deliveryEta := none,
    deliveryEtaLabel := "", createdAt := "t0", deliveredAt := none,
    receivedByUserId := none }

def c4cexItem : Item :=
  { id := "ITEM-001", name := "Widget", nameEn := "Widget", nameAr := "",
    branchId := "B001", minQty := 0, baseQty := 3, unitCost := 1 }

def c4cexState : DataState :=
  { branches := [], users := [cexDriver], items := [c4cexItem], movements := [],
    budgets := [], requests := [c4cexRequest], trips := [], vehicles := [],
    vehicleReminders := [], carAssignments := [], carMaintenances := [] }

def c4cexInput : DeliverInput := { id := "REQ-1", userId := "u3", driverUserId := "" }

/-- Claim C4 counterexample: the source stock (3) is below the requested
qty (5), yet a deliver call by a driver actor fails with the forbidden
role error, not with the insufficient-stock error the claim promises
for every such call. -/
theorem claim_C4_counterexample :
    c4cexState.items.find? (pFrom c4cexRequest) = some c4cexItem ∧
    c4cexItem.baseQty < c4cexRequest.qty ∧
    (deliver c4cexState 9 "t9" c4cexInput).2 =
      Except.error (ApiErr.forbidden "Only staff/supervisor/admin/manager can confirm receipt") ∧
    ∀ m, (deliver c4cexState 9 "t9" c4cexInput).2 ≠ Except.error (ApiErr.insufficientStock m) := by
  refine ⟨by decide, by decide, rfl, ?_⟩
  intro m hm
  rw [show (deliver c4cexState 9 "t9" c4cexInput).2 =
      Except.error (ApiErr.forbidden "Only staff/supervisor/admin/manager can confirm receipt")
    from rfl] at hm
  simp at hm

def c5cexRequest : Request :=
  { id := "REQ-1", itemId := "ITEM-001", qty := 5, fromBranchId := "B001",
    toBranchId := "B003", createdByUserId := "u9", note := "", priority := "normal",
    urgentNote := "", imageData := "", status := "delivered", driverUserId := none,
    assignedAt := none, assignedByUserId := none, deliveryEta := none,
    deliveryEtaLabel := "", createdAt := "t0", deliveredAt := some "t1",
    receivedByUserId := some "u9" }

def c5cexState : DataState :=
  { branches := [], users := [cexStaffB2], items := [], movements := [],
    budgets := [], requests := [c5cexRequest], trips := [], vehicles := [],
    vehicleReminders := [], carAssignments := [], carMaintenances := [] }

def c5cexInput : DeliverInput := { id := "REQ-1", userId := "u2", driverUserId := "" }

/-- Claim C5 counterexample: a staff actor whose branch (B002) differs
from the toBranchId of the request (B003) gets the conflict error when
the request is already delivered, because the delivered check runs
before the destination-branch scoping check, so the promised forbidden
error is not produced for every wrong-branch staff call. -/
theorem claim_C5_counterexample :
    cexStaffB2.role = "staff" ∧
    cexStaffB2.branchId ≠ some c5cexRequest.toBranchId ∧
    (deliver c5cexState 9 "t9" c5cexInput).2 =
      Except.error (ApiErr.conflict "Request already delivered") ∧
    ∀ m, (deliver c5cexState 9 "t9" c5cexInput).2 ≠ Except.error (ApiErr.forbidden m) := by
  refine ⟨rfl, by decide, rfl, ?_⟩
  intro m hm
  rw [show (deliver c5cexState 9 "t9" c5cexInput).2 =
      Except.error (ApiErr.conflict "Request already delivered")
    from rfl] at hm
  simp at hm

def c6cexRequest : Request :=
  { id := "REQ-1", itemId := "ITEM-001", qty := 5, fromBranchId := "B001",
    toBranchId := "B002", createdByUserId := "u2", note := "", priority := "normal",
    urgentNote := "", imageData := "", status := "assigned", driverUserId := some "u3",
    assignedAt := some "t0", assignedByUserId := some "u1", deliveryEta := none,
    deliveryEtaLabel := "", createdAt := "t0", deliveredAt := none,
    receivedByUserId := none }

def c6cexState : DataState :=
  { branches := [], users := [cexDriver], items := [], movements := [],
    budgets := [], requests := [c6cexRequest], trips := [], vehicles := [],
    vehicleReminders := [], carAssignments := [], carMaintenances := [] }

def c6cexInput : ClaimInput :=
  { id := "REQ-1", userId := "u3", deliveryEta := none, deliveryEtaLabel := none }

/-- Claim C6 counterexample: a re-claim by the driver already assigned,
with no ETA supplied, succeeds but still changes the request state: it
refreshes assignedAt to the current clock and overwrites
assignedByUserId (here previously the manager u1) with the driver, so
the re-claim is not idempotent as claimed. -/
theorem claim_C6_counterexample :
    c6cexInput.deliveryEta = none ∧ c6cexInput.deliveryEtaLabel = none ∧
    c6cexRequest.driverUserId = some cexDriver.id ∧
    (∃ rq, (claimRequest c6cexState "t9" c6cexInput).2 = Except.ok rq) ∧
    (claimRequest c6cexState "t9" c6cexInput).1.requests ≠ c6cexState.requests := by
  refine ⟨rfl, rfl, rfl, ⟨_, rfl⟩, by decide⟩

def c8cexState : DataState :=
  { branches := [], users := [cexStaffB2], items := [], movements := [],
    budgets := [], requests := [c6cexRequest], trips := [], vehicles := [],
    vehicleReminders := [], carAssignments := [], carMaintenances := [] }

def c8cexInput : DeleteRequestInput := { id := "REQ-1", userId := "u2" }

/-- Claim C8 counterexample: a delete attempt on an assigned request by
a staff actor fails with the forbidden role error, not with the
conflict error the claim promises for every actor. -/
theorem claim_C8_counterexample :
    c6cexRequest.status = "assigned" ∧
    (deleteRequest c8cexState c8cexInput).2 =
      Except.error (ApiErr.forbidden "Only admin/manager can delete requests") ∧
    ∀ m, (deleteRequest c8cexState c8cexInput).2 ≠ Except.error (ApiErr.conflict m) := by
  refine ⟨rfl, rfl, ?_⟩
  intro m hm
  rw [show (deleteRequest c8cexState c8cexInput).2 =
      Except.error (ApiErr.forbidden "Only admin/manager can delete requests")
    from rfl] at hm
  simp at hm

/-- Claim C8 (amended): deleting a request succeeds only while its
status is pending.  For a request that is not pending, a delete attempt
never succeeds and leaves the whole document unchanged, and when the
actor resolves to an admin or manager the failure is the conflict
error; for any other actor the failure is the forbidden role error
(forced by the counterexample).  A successful delete requires an
admin/manager actor and a pending request and removes exactly the first
request with that id, leaving every other collection unchanged. -/
theorem claim_C8_amended (s : DataState) (inp : DeleteRequestInput) :
    (∀ r, s.requests.find? (fun x => x.id == inp.id) = some r →
      r.status ≠ "pending" →
      (deleteRequest s inp).1 = s ∧
      (∀ out, (deleteRequest s inp).2 ≠ Except.ok out) ∧
      (requireRole (findUserById s inp.userId) ["admin", "manager"] = true →
        (deleteRequest s inp).2 = Except.error (ApiErr.conflict "Only pending requests can be deleted"))) ∧
    (∀ s2 out, deleteRequest s inp = (s2, Except.ok out) →
      requireRole (findUserById s inp.userId) ["admin", "manager"] = true ∧
      (∃ r, s.requests.find? (fun x => x.id == inp.id) = some r ∧ r.status = "pending") ∧
      s2 = { s with requests := removeFirst (fun x => x.id == inp.id) s.requests }) := by
  constructor
  · intro r hr hst
    have hst2 : (r.status == "pending") = false := by simpa using hst
    obtain hb | hb := Bool.eq_false_or_eq_true
      (requireRole (findUserById s inp.userId) ["admin", "manager"])
    case inr =>
      refine ⟨by simp [deleteRequest, hb], ?_, ?_⟩
      · intro out hout
        rw [show (deleteRequest s inp).2 =
            Except.error (ApiErr.forbidden "Only admin/manager can delete requests")
          from by simp [deleteRequest, hb]] at hout
        simp at hout
      · intro hrt
        rw [hrt] at hb
        cases hb
    case inl =>
      refine ⟨by simp [deleteRequest, hb, hr, hst, hst2], ?_, ?_⟩
      · intro out hout
        rw [show (deleteRequest s inp).2 =
            Except.error (ApiErr.conflict "Only pending requests can be deleted")
          from by simp [deleteRequest, hb, hr, hst, hst2]] at hout
        simp at hout
      · intro _
        simp [deleteRequest, hb, hr, hst, hst2]
  · intro s2 out hso
    unfold deleteRequest at hso
    repeat' split at hso
    · exact absurd hso (by simp)
    · exact absurd hso (by simp)
    · exact absurd hso (by simp)
    rename_i hrr ro r hr hst
    have hrr2 : requireRole (findUserById s inp.userId) ["admin", "manager"] = true := by
      simpa using hrr
    have hst2 : r.status = "pending" := by simpa using hst
    have h1 : s2 = { s with requests := removeFirst (fun x => x.id == inp.id) s.requests } := by
      have h2 := congrArg Prod.fst hso
      simpa using h2.symm
    exact ⟨hrr2, ⟨r, hr, hst2⟩, h1⟩

theorem step_keeps_delivered (rid : String) (s : DataState) (op : Op)
    (h : ∀ x ∈ s.requests, x.id = rid → x.status = "delivered") :
    ∀ x ∈ (step s op).requests, x.id = rid → x.status = "delivered" := by
  cases op with
  | move n i inp =>
    intro x hx
    simp only [step] at hx
    rw [postMovements_requests] at hx
    exact h x hx
  | deliverOp n i inp =>
    intro x hx hid
    simp only [step] at hx
    rcases deliver_requests s n i inp with he | he
    · rw [he] at hx; exact h x hx hid
    · rw [he] at hx
      rcases mem_updateFirst hx with hmem | ⟨z, hz1, hz2⟩
      · exact h x hmem hid
      · rw [hz2]; rfl
  | claimOp i inp =>
    intro x hx hid
    simp only [step] at hx
    rcases claimRequest_requests s i inp with he | ⟨d, z0, hd, hz0, hst0, he⟩
    · rw [he] at hx; exact h x hx hid
    · rw [he] at hx
      rcases mem_updateFirst hx with hmem | ⟨z, hz1, hz2⟩
      · exact h x hmem hid
      · rw [hz0] at hz1
        cases hz1
        have hzid : z0.id = rid := by rw [hz2] at hid; exact hid
        have hzdel : z0.status = "delivered" :=
          h z0 (List.mem_of_find?_eq_some hz0) hzid
        rw [hzdel] at hst0
        simp at hst0
  | deleteOp inp =>
    intro x hx hid
    simp only [step] at hx
    rcases deleteRequest_requests s inp with he | he
    · rw [he] at hx; exact h x hx hid
    · rw [he] at hx
      exact h x (mem_removeFirst hx) hid

theorem run_keeps_delivered (rid : String) (ops : List Op) (s : DataState)
    (h : ∀ x ∈ s.requests, x.id = rid → x.status = "delivered") :
    ∀ x ∈ (run s ops).requests, x.id = rid → x.status = "delivered" := by
  induction ops generalizing s with
  | nil => exact h
  | cons op ops ih => exact ih (step s op) (step_keeps_delivered rid s op h)

/-- Claim C3 (amended): a confirm/deliver call on a request whose
status is already delivered never succeeds and leaves the whole
document unchanged - no movement is appended and no stock or request
field changes; when the actor exists with an allowed role the failure
is the conflict error (for other actors it is an earlier role error,
forced by the counterexample).  Moreover the delivered status is
preserved by every further operation, so with the failure above the
OUT/IN movement pair of a request is created at most once. -/
theorem claim_C3_amended (s : DataState) (now : Nat) (iso : String)
    (inp : DeliverInput) (r : Request)
    (hfind : s.requests.find? (fun x => x.id == inp.id) = some r)
    (hst : r.status = "delivered") :
    (deliver s now iso inp).1 = s ∧
    (∀ out, (deliver s now iso inp).2 ≠ Except.ok out) ∧
    (∀ a, deliverActorId inp ≠ "" →
      findUserById s (deliverActorId inp) = some a →
      requireRole (some a) allowedDeliverRoles = true →
      (deliver s now iso inp).2 = Except.error (ApiErr.conflict "Request already delivered")) ∧
    (∀ ops, (∀ x ∈ s.requests, x.id = inp.id → x.status = "delivered") →
      ∀ x ∈ (run s ops).requests, x.id = inp.id → x.status = "delivered") := by
  refine ⟨?_, ?_, ?_, ?_⟩
  · unfold deliver
    repeat' split
    all_goals try rfl
    all_goals simp_all
  · intro out hout
    unfold deliver at hout
    repeat' split at hout
    all_goals simp_all
  · intro a hne ha hrole
    have hne2 : (deliverActorId inp == "") = false := by simpa using hne
    have hrole2 : (!requireRole (some a) allowedDeliverRoles) = false := by
      simp [hrole]
    simp [deliver, hne2, ha, hrole2, hfind, hst]
  · intro ops h
    exact run_keeps_delivered inp.id ops s h

/-- Claim C4 (amended): when the source-branch stock record of the
request holds less than the requested qty, a deliver call never
succeeds and leaves the whole document unchanged - the ledger and every
baseQty are exactly as before; when the call is otherwise valid (actor
with allowed role and branch scope, request found and not delivered)
the failure is the insufficient-stock error (for calls failing an
earlier check the error is that earlier one, forced by the
counterexample). -/
theorem claim_C4_amended (s : DataState) (now : Nat) (iso : String)
    (inp : DeliverInput) (r : Request) (it : Item)
    (hfr : s.requests.find? (fun x => x.id == inp.id) = some r)
    (hfs : s.items.find? (pFrom r) = some it)
    (hlt : it.baseQty < r.qty) :
    (deliver s now iso inp).1 = s ∧
    (∀ out, (deliver s now iso inp).2 ≠ Except.ok out) ∧
    (∀ a, deliverActorId inp ≠ "" →
      findUserById s (deliverActorId inp) = some a →
      requireRole (some a) allowedDeliverRoles = true →
      r.status ≠ "delivered" →
      ((a.role = "staff" ∨ a.role = "supervisor") → a.branchId = some r.toBranchId) →
      (deliver s now iso inp).2 =
        Except.error (ApiErr.insufficientStock "Not enough stock in storage to deliver")) := by
  refine ⟨?_, ?_, ?_⟩
  · unfold deliver
    repeat' split
    all_goals try rfl
    all_goals simp_all
    all_goals omega
  · intro out hout
    unfold deliver at hout
    repeat' split at hout
    all_goals simp_all
    all_goals omega
  · intro a hne ha hrole hnd hscope
    have hne2 : (deliverActorId inp == "") = false := by simpa using hne
    have hrole2 : (!requireRole (some a) allowedDeliverRoles) = false := by simp [hrole]
    have hnd2 : (r.status == "delivered") = false := by simpa using hnd
    have hbr : ¬((a.role = "staff" ∨ a.role = "supervisor") ∧
        ¬ a.branchId = some r.toBranchId) := by
      intro hand
      exact hand.2 (hscope hand.1)
    simp [deliver, hne2, ha, hrole2, hfr, hnd2, hbr, hfs, hlt]

/-- Claim C5 (amended): deliver succeeds only when the acting user has
role staff, supervisor, admin or manager; an actor with any other role
always gets the forbidden role error with the document unchanged, and a
staff or supervisor actor whose branch differs from the toBranchId of
an existing, not-yet-delivered request gets the destination-branch
forbidden error with the document unchanged (on an already delivered
request the conflict error fires first, forced by the counterexample);
every successful call has an allowed-role actor whose branch matches
the request when the role is staff or supervisor. -/
theorem claim_C5_amended (s : DataState) (now : Nat) (iso : String) (inp : DeliverInput) :
    (∀ a, deliverActorId inp ≠ "" →
      findUserById s (deliverActorId inp) = some a →
      requireRole (some a) allowedDeliverRoles = false →
      (deliver s now iso inp).1 = s ∧
      (deliver s now iso inp).2 =
        Except.error (ApiErr.forbidden "Only staff/supervisor/admin/manager can confirm receipt")) ∧
    (∀ a r, deliverActorId inp ≠ "" →
      findUserById s (deliverActorId inp) = some a →
      (a.role = "staff" ∨ a.role = "supervisor") →
      s.requests.find? (fun x => x.id == inp.id) = some r →
      r.status ≠ "delivered" →
      a.branchId ≠ some r.toBranchId →
      (deliver s now iso inp).1 = s ∧
      (deliver s now iso inp).2 =
        Except.error (ApiErr.forbidden "Only staff from the destination branch can confirm receipt")) ∧
    (∀ s2 out, deliver s now iso inp = (s2, Except.ok out) →
      ∃ a, findUserById s (deliverActorId inp) = some a ∧
        requireRole (some a) allowedDeliverRoles = true ∧
        ((a.role = "staff" ∨ a.role = "supervisor") →
          ∃ r, s.requests.find? (fun x => x.id == inp.id) = some r ∧
            a.branchId = some r.toBranchId)) := by
  refine ⟨?_, ?_, ?_⟩
  · intro a hne ha hrf
    have hne2 : (deliverActorId inp == "") = false := by simpa using hne
    have hrole2 : (!requireRole (some a) allowedDeliverRoles) = true := by simp [hrf]
    constructor
    · simp [deliver, hne2, ha, hrole2]
    · simp [deliver, hne2, ha, hrole2]
  · intro a r hne ha hsv hfr hnd hbrne
    have hne2 : (deliverActorId inp == "") = false := by simpa using hne
    have hrole2 : (!requireRole (some a) allowedDeliverRoles) = false := by
      rcases hsv with h | h <;> simp [requireRole, allowedDeliverRoles, h, List.contains]
    have hnd2 : (r.status == "delivered") = false := by simpa using hnd
    have hcond : (a.role = "staff" ∨ a.role = "supervisor") ∧
        ¬ a.branchId = some r.toBranchId := ⟨hsv, hbrne⟩
    constructor
    · simp [deliver, hne2, ha, hrole2, hfr, hnd2, hcond]
    · simp [deliver, hne2, ha, hrole2, hfr, hnd2, hcond]
  · intro s2 out hso
    unfold deliver at hso
    repeat' split at hso
    all_goals simp only [Prod.mk.injEq] at hso
    all_goals try (exact Except.noConfusion hso.2)
    rename_i hval uo a ha hrole ro r hr hdel hbr io sit hsit hq
    refine ⟨a, ha, by simpa using hrole, ?_⟩
    intro hsv
    refine ⟨r, hr, ?_⟩
    have hbr2 := hbr
    simp at hbr2
    exact hbr2 hsv

/-- Claim C6 (amended): claiming a non-delivered request already
assigned to driver A, attempted by a different driver B, always fails
with the forbidden error and changes nothing.  A re-claim by driver A
succeeds and rewrites only the found request, keeping its driver and
assigned status but refreshing assignedAt to the current clock and
resetting assignedByUserId to the driver, and applying the ETA fields
exactly when they are supplied (the refresh of assignedAt and
assignedByUserId is forced by the counterexample: the re-claim is not
fully idempotent). -/
theorem claim_C6_amended (s : DataState) (iso : String) (inp : ClaimInput)
    (d : User) (r : Request)
    (hu : findUserById s inp.userId = some d)
    (hdr : d.role = "driver")
    (hfr : s.requests.find? (fun x => x.id == inp.id) = some r)
    (hnd : r.status ≠ "delivered") :
    (∀ dA, r.driverUserId = some dA → dA ≠ "" → dA ≠ d.id →
      (claimRequest s iso inp).1 = s ∧
      (claimRequest s iso inp).2 =
        Except.error (ApiErr.forbidden "Request already assigned to another driver")) ∧
    (r.driverUserId = some d.id →
      (claimRequest s iso inp).2 = Except.ok (claimUpdateRequest d.id iso inp r) ∧
      (claimRequest s iso inp).1 =
        { s with requests := updateFirst (fun x => x.id == inp.id)
                   (claimUpdateRequest d.id iso inp) s.requests }) := by
  have hrole2 : (!requireRole (some d) ["driver"]) = false := by
    simp [requireRole, hdr, List.contains]
  have hnd2 : (r.status == "delivered") = false := by simpa using hnd
  constructor
  · intro dA hdA hne hneq
    have hguard : (match r.driverUserId with
        | none => false
        | some x => x != "" && x != d.id) = true := by
      rw [hdA]
      simp [hne, hneq]
    constructor
    · simp [claimRequest, hu, hrole2, hfr, hnd2, hguard]
    · simp [claimRequest, hu, hrole2, hfr, hnd2, hguard]
  · intro hself
    have hguard : (match r.driverUserId with
        | none => false
        | some x => x != "" && x != d.id) = false := by
      rw [hself]
      simp
    constructor
    · simp [claimRequest, hu, hrole2, hfr, hnd2, hguard]
    · simp [claimRequest, hu, hrole2, hfr, hnd2, hguard]

theorem pFrom_pTo_disjoint (r : Request) (hbr : r.toBranchId ≠ r.fromBranchId) :
    ∀ x, pFrom r x → ¬ pTo r x := by
  intro x h1 h2
  unfold pFrom at h1
  unfold pTo at h2
  simp at h1 h2
  exact hbr (h2.2.symm.trans h1.2)

theorem pTo_pFrom_disjoint (r : Request) (hbr : r.toBranchId ≠ r.fromBranchId) :
    ∀ x, pTo r x → ¬ pFrom r x := by
  intro x h1 h2
  unfold pTo at h1
  unfold pFrom at h2
  simp at h1 h2
  exact hbr (h1.2.symm.trans h2.2)

theorem deliver_stock_balance (r : Request) (sit : Item) (items items2 : List Item)
    (hsit : items.find? (pFrom r) = some sit)
    (h2 : items2 = (match (updateFirst (pFrom r) (subQty r.qty) items).find? (pTo r) with
      | some _ => updateFirst (pTo r) (addQty r.qty) (updateFirst (pFrom r) (subQty r.qty) items)
      | none => updateFirst (pFrom r) (subQty r.qty) items ++ [newDestItem r sit])) :
    stockIn items2 (pTo r) - stockIn items (pTo r)
      = stockIn items (pFrom r) - stockIn items2 (pFrom r) := by
  have hpfs : ∀ x : Item, pFrom r (subQty r.qty x) = pFrom r x := fun _ => rfl
  have hpts : ∀ x : Item, pTo r (subQty r.qty x) = pTo r x := fun _ => rfl
  have hpta : ∀ x : Item, pTo r (addQty r.qty x) = pTo r x := fun _ => rfl
  have hpfa : ∀ x : Item, pFrom r (addQty r.qty x) = pFrom r x := fun _ => rfl
  by_cases hbr : r.toBranchId = r.fromBranchId
  · have hpp : pTo r = pFrom r := by
      funext x
      unfold pTo pFrom
      rw [hbr]
    rw [hpp] at h2 ⊢
    rw [find?_updateFirst_self hpfs, hsit] at h2
    rw [show Option.map (subQty r.qty) (some sit) = some (subQty r.qty sit) from rfl] at h2
    rw [updateFirst_updateFirst hpfs] at h2
    have hcomp : ∀ x : Item, pFrom r (addQty r.qty (subQty r.qty x)) = pFrom r x := fun _ => rfl
    have e1 : stockIn items2 (pFrom r)
        = (addQty r.qty (subQty r.qty sit)).baseQty := by
      rw [h2]
      unfold stockIn
      rw [find?_updateFirst_self hcomp, hsit]
      rfl
    have e2 : stockIn items (pFrom r) = sit.baseQty := by
      unfold stockIn
      rw [hsit]
    rw [e1, e2]
    unfold addQty subQty
    dsimp only
    omega
  · have hd1 := pFrom_pTo_disjoint r hbr
    have hd2 := pTo_pFrom_disjoint r hbr
    have hfind1 : (updateFirst (pFrom r) (subQty r.qty) items).find? (pTo r)
        = items.find? (pTo r) :=
      find?_updateFirst_disjoint hpts hd1 items
    cases hdest : items.find? (pTo r) with
    | some d =>
      rw [hfind1, hdest] at h2
      have e1 : stockIn items2 (pTo r) = d.baseQty + r.qty := by
        rw [h2]
        unfold stockIn
        rw [find?_updateFirst_self hpta, hfind1, hdest]
        rfl
      have e2 : stockIn items (pTo r) = d.baseQty := by
        unfold stockIn
        rw [hdest]
      have e3 : stockIn items (pFrom r) = sit.baseQty := by
        unfold stockIn
        rw [hsit]
      have e4 : stockIn items2 (pFrom r) = sit.baseQty - r.qty := by
        rw [h2]
        unfold stockIn
        rw [find?_updateFirst_disjoint hpfa hd2, find?_updateFirst_self hpfs, hsit]
        rfl
      rw [e1, e2, e3, e4]
      omega
    | none =>
      have hptnd : pTo r (newDestItem r sit) = true := by
        have hps : pFrom r sit = true := List.find?_some hsit
        unfold pFrom at hps
        unfold pTo newDestItem
        simp at hps ⊢
        exact hps.1
      rw [hfind1, hdest] at h2
      have e1 : stockIn items2 (pTo r) = 0 + r.qty := by
        rw [h2]
        unfold stockIn
        rw [List.find?_append, hfind1, hdest]
        rw [show (Option.none.or ([newDestItem r sit].find? (pTo r)))
            = [newDestItem r sit].find? (pTo r) from rfl]
        rw [List.find?_cons_of_pos _ hptnd]
        rfl
      have e2 : stockIn items (pTo r) = 0 := by
        unfold stockIn
        rw [hdest]
      have e3 : stockIn items (pFrom r) = sit.baseQty := by
        unfold stockIn
        rw [hsit]
      have e4 : stockIn items2 (pFrom r) = sit.baseQty - r.qty := by
        rw [h2]
        unfold stockIn
        rw [List.find?_append, find?_updateFirst_self hpfs, hsit]
        rfl
      rw [e1, e2, e3, e4]
      omega

theorem deliver_items_created (r : Request) (sit : Item) (items items2 : List Item)
    (hsit : items.find? (pFrom r) = some sit)
    (hnone : items.find? (pTo r) = none)
    (h2 : items2 = (match (updateFirst (pFrom r) (subQty r.qty) items).find? (pTo r) with
      | some _ => updateFirst (pTo r) (addQty r.qty) (updateFirst (pFrom r) (subQty r.qty) items)
      | none => updateFirst (pFrom r) (subQty r.qty) items ++ [newDestItem r sit])) :
    items2 = updateFirst (pFrom r) (subQty r.qty) items ++ [newDestItem r sit] := by
  by_cases hbr : r.toBranchId = r.fromBranchId
  · exfalso
    have hpp : pTo r = pFrom r := by
      funext x
      unfold pTo pFrom
      rw [hbr]
    rw [hpp] at hnone
    rw [hnone] at hsit
    cases hsit
  · have hpts : ∀ x : Item, pTo r (subQty r.qty x) = pTo r x := fun _ => rfl
    have hfind1 : (updateFirst (pFrom r) (subQty r.qty) items).find? (pTo r)
        = items.find? (pTo r) :=
      find?_updateFirst_disjoint hpts (pFrom_pTo_disjoint r hbr) items
    rw [hfind1, hnone] at h2
    exact h2

/-- Claim C1: every successful confirm/deliver appends exactly two
movements to the ledger - an OUT at the source branch and an IN at the
destination branch - with equal qty (the request qty), the same itemId,
and notes referencing the request id; the destination-branch stock
record increases by exactly the amount the source-branch record
decreases, and when the destination branch had no record for the item a
record is created (with baseQty 0, immediately incremented by qty). -/
theorem claim_C1_deliver_pair (s : DataState) (now : Nat) (iso : String)
    (inp : DeliverInput) (s2 : DataState) (rq : Request) (mvOut mvIn : Movement)
    (h : deliver s now iso inp = (s2, Except.ok (rq, mvOut, mvIn))) :
    ∃ r, s.requests.find? (fun x => x.id == inp.id) = some r ∧
      s2.movements = s.movements ++ [mvOut, mvIn] ∧
      mvOut.type = "OUT" ∧ mvIn.type = "IN" ∧
      mvOut.qty = r.qty ∧ mvIn.qty = r.qty ∧
      mvOut.itemId = r.itemId ∧ mvIn.itemId = r.itemId ∧
      mvOut.branchId = r.fromBranchId ∧ mvIn.branchId = r.toBranchId ∧
      mvOut.note = "Delivery OUT for request " ++ r.id ∧
      mvIn.note = "Delivery IN for request " ++ r.id ∧
      stockOf s2 r.itemId r.toBranchId - stockOf s r.itemId r.toBranchId
        = stockOf s r.itemId r.fromBranchId - stockOf s2 r.itemId r.fromBranchId ∧
      (s.items.find? (pTo r) = none →
        ∃ dNew, s2.items = updateFirst (pFrom r) (subQty r.qty) s.items ++ [dNew] ∧
          dNew.id = r.itemId ∧ dNew.branchId = r.toBranchId ∧
          dNew.minQty = 0 ∧ dNew.baseQty = 0 + r.qty) := by
  unfold deliver at h
  repeat' split at h
  all_goals simp only [Prod.mk.injEq, Except.ok.injEq] at h
  all_goals try (exact Except.noConfusion h.2)
  rename_i hval uo a ha hrole ro r hr hdel hbrg io sit hsit hq
  obtain ⟨hs2, hrq, hom, him⟩ := h
  subst hs2
  subst hom
  subst him
  have hsid : (sit.id == r.itemId) = true := by
    have hps : pFrom r sit = true := List.find?_some hsit
    unfold pFrom at hps
    simp at hps
    simp [hps.1]
  refine ⟨r, hr, rfl, rfl, rfl, rfl, rfl, rfl, rfl, rfl, rfl, rfl, rfl, ?_, ?_⟩
  · exact deliver_stock_balance r sit s.items _ hsit rfl
  · intro hnone
    refine ⟨newDestItem r sit, deliver_items_created r sit s.items _ hsit hnone rfl, ?_, rfl, rfl, rfl⟩
    unfold newDestItem
    dsimp only
    exact eq_of_beq hsid

def c1wRequest : Request :=
  { id := "REQ-1", itemId := "ITEM-001", qty := 5, fromBranchId := "B001",
    toBranchId := "B002", createdByUserId := "u2", note := "", priority := "normal",
    urgentNote := "", imageData := "", status := "pending", driverUserId := none,
    assignedAt := none, assignedByUserId := none, deliveryEta := none,
    deliveryEtaLabel := "", createdAt := "t0", deliveredAt := none,
    receivedByUserId := none }

def c1wItem : Item :=
  { id := "ITEM-001", name := "Widget", nameEn := "Widget", nameAr := "",
    branchId := "B001", minQty := 0, baseQty := 10, unitCost := 2 }

def c1wState : DataState :=
  { branches := [], users := [cexStaffB2], items := [c1wItem], movements := [],
    budgets := [], requests := [c1wRequest], trips := [], vehicles := [],
    vehicleReminders := [], carAssignments := [], carMaintenances := [] }

def c1wInput : DeliverInput := { id := "REQ-1", userId := "u2", driverUserId := "" }

def c1wOut : Movement :=
  { id := "MOV-7", itemId := "ITEM-001", type := "OUT", qty := 5, userId := "u2",
    branchId := "B001", note := "Delivery OUT for request REQ-1", createdAt := "t7" }

def c1wIn : Movement :=
  { id := "MOV-8", itemId := "ITEM-001", type := "IN", qty := 5, userId := "u2",
    branchId := "B002", note := "Delivery IN for request REQ-1", createdAt := "t7" }

/-- Claim C1 witness: a concrete successful delivery of 5 units of
ITEM-001 from B001 to B002 produces the OUT/IN pair and the balanced
stock change. -/
theorem claim_C1_witness :
    ∃ r, c1wState.requests.find? (fun x => x.id == c1wInput.id) = some r ∧
      (deliver c1wState 7 "t7" c1wInput).1.movements = c1wState.movements ++ [c1wOut, c1wIn] ∧
      c1wOut.type = "OUT" ∧ c1wIn.type = "IN" ∧
      c1wOut.qty = r.qty ∧ c1wIn.qty = r.qty ∧
      c1wOut.itemId = r.itemId ∧ c1wIn.itemId = r.itemId ∧
      c1wOut.branchId = r.fromBranchId ∧ c1wIn.branchId = r.toBranchId ∧
      c1wOut.note = "Delivery OUT for request " ++ r.id ∧
      c1wIn.note = "Delivery IN for request " ++ r.id ∧
      stockOf (deliver c1wState 7 "t7" c1wInput).1 r.itemId r.toBranchId
          - stockOf c1wState r.itemId r.toBranchId
        = stockOf c1wState r.itemId r.fromBranchId
          - stockOf (deliver c1wState 7 "t7" c1wInput).1 r.itemId r.fromBranchId ∧
      (c1wState.items.find? (pTo r) = none →
        ∃ dNew, (deliver c1wState 7 "t7" c1wInput).1.items =
            updateFirst (pFrom r) (subQty r.qty) c1wState.items ++ [dNew] ∧
          dNew.id = r.itemId ∧ dNew.branchId = r.toBranchId ∧
          dNew.minQty = 0 ∧ dNew.baseQty = 0 + r.qty) :=
  claim_C1_deliver_pair c1wState 7 "t7" c1wInput (deliver c1wState 7 "t7" c1wInput).1
    (deliverUpdateRequest "u2" "t7" c1wRequest) c1wOut c1wIn rfl

/-- Claim C3 witness: the amended theorem applied to a delivered
request; any call leaves the document unchanged and an allowed-role
actor gets the conflict error. -/
theorem claim_C3_witness :
    (deliver c3cexState 9 "t9" c3cexInput).1 = c3cexState ∧
    (∀ out, (deliver c3cexState 9 "t9" c3cexInput).2 ≠ Except.ok out) ∧
    (∀ a, deliverActorId c3cexInput ≠ "" →
      findUserById c3cexState (deliverActorId c3cexInput) = some a →
      requireRole (some a) allowedDeliverRoles = true →
      (deliver c3cexState 9 "t9" c3cexInput).2 =
        Except.error (ApiErr.conflict "Request already delivered")) ∧
    (∀ ops, (∀ x ∈ c3cexState.requests, x.id = c3cexInput.id → x.status = "delivered") →
      ∀ x ∈ (run c3cexState ops).requests, x.id = c3cexInput.id → x.status = "delivered") :=
  claim_C3_amended c3cexState 9 "t9" c3cexInput c3cexRequest rfl rfl

def c4wState : DataState :=
  { branches := [], users := [cexStaffB2], items := [c4cexItem], movements := [],
    budgets := [], requests := [c4cexRequest], trips := [], vehicles := [],
    vehicleReminders := [], carAssignments := [], carMaintenances := [] }

def c4wInput : DeliverInput := { id := "REQ-1", userId := "u2", driverUserId := "" }

/-- Claim C4 witness: stock 3 against requested qty 5; the otherwise
valid staff confirm fails with the insufficient-stock error and the
document is unchanged. -/
theorem claim_C4_witness :
    (deliver c4wState 9 "t9" c4wInput).1 = c4wState ∧
    (deliver c4wState 9 "t9" c4wInput).2 =
      Except.error (ApiErr.insufficientStock "Not enough stock in storage to deliver") := by
  have h := claim_C4_amended c4wState 9 "t9" c4wInput c4cexRequest c4cexItem rfl rfl (by decide)
  exact ⟨h.1, h.2.2 cexStaffB2 (by decide) rfl (by decide) (by decide) (fun _ => rfl)⟩

/-- Claim C5 witness: a driver actor is outside the allowed role set,
so the confirm fails with the forbidden role error and the document is
unchanged; applied through the amended theorem at the concrete state. -/
theorem claim_C5_witness :
    (deliver c4cexState 9 "t9" c4cexInput).1 = c4cexState ∧
    (deliver c4cexState 9 "t9" c4cexInput).2 =
      Except.error (ApiErr.forbidden "Only staff/supervisor/admin/manager can confirm receipt") :=
  (claim_C5_amended c4cexState 9 "t9" c4cexInput).1 cexDriver (by decide) rfl (by decide)

/-- Claim C6 witness: the amended theorem applied to the re-claim by
the assigned driver: the call succeeds and rewrites exactly the claimed
request through claimUpdateRequest. -/
theorem claim_C6_witness :
    (claimRequest c6cexState "t9" c6cexInput).2 =
      Except.ok (claimUpdateRequest cexDriver.id "t9" c6cexInput c6cexRequest) ∧
    (claimRequest c6cexState "t9" c6cexInput).1 =
      { c6cexState with requests := updateFirst (fun x => x.id == c6cexInput.id)
                          (claimUpdateRequest cexDriver.id "t9" c6cexInput)
                          c6cexState.requests } :=
  (claim_C6_amended c6cexState "t9" c6cexInput cexDriver c6cexRequest rfl rfl rfl
    (by decide)).2 rfl

def c8wState : DataState :=
  { branches := [], users := [c7wUser], items := [], movements := [],
    budgets := [], requests := [c6cexRequest], trips := [], vehicles := [],
    vehicleReminders := [], carAssignments := [], carMaintenances := [] }

def c8wInput : DeleteRequestInput := { id := "REQ-1", userId := "u1" }

/- the same admin deleting a pending request: the success path of the
delete endpoint -/
def c8wsState : DataState :=
  { branches := [], users := [c7wUser], items := [], movements := [],
    budgets := [], requests := [c1wRequest], trips := [], vehicles := [],
    vehicleReminders := [], carAssignments := [], carMaintenances := [] }

/-- Claim C8 witness: an admin delete attempt on an assigned request
fails with the conflict error and leaves the document unchanged, while
the same admin deleting a pending request succeeds and removes exactly
the first request with that id. -/
theorem claim_C8_witness :
    ((deleteRequest c8wState c8wInput).1 = c8wState ∧
     (deleteRequest c8wState c8wInput).2 =
       Except.error (ApiErr.conflict "Only pending requests can be deleted")) ∧
    ((deleteRequest c8wsState c8wInput).2 = Except.ok () ∧
     requireRole (findUserById c8wsState c8wInput.userId) ["admin", "manager"] = true ∧
     (∃ r, c8wsState.requests.find? (fun x => x.id == c8wInput.id) = some r ∧
       r.status = "pending") ∧
     (deleteRequest c8wsState c8wInput).1 =
       { c8wsState with requests := removeFirst (fun x => x.id == c8wInput.id)
                          c8wsState.requests }) := by
  have h1 := (claim_C8_amended c8wState c8wInput).1 c6cexRequest rfl (by decide)
  have h2 := (claim_C8_amended c8wsState c8wInput).2
    (deleteRequest c8wsState c8wInput).1 () rfl
  exact ⟨⟨h1.1, h1.2.2 (by decide)⟩, rfl, h2.1, h2.2.1, h2.2.2⟩

/- two stored user lists agree on everything except possibly the
password values -/
def usersAgreeExceptPassword (us vs : List User) : Prop :=
  List.Forall₂ (fun u v => u.id = v.id ∧ u.name = v.name ∧ u.role = v.role ∧
    u.branchId = v.branchId) us vs

theorem scrub_map_eq {us vs : List User} (h : usersAgreeExceptPassword us vs) :
    us.map scrubUser = vs.map scrubUser := by
  induction h with
  | nil => rfl
  | cons h1 h2 ih =>
    simp only [List.map_cons, ih]
    congr 1
    unfold scrubUser
    rw [h1.1, h1.2.1, h1.2.2.1, h1.2.2.2]

/-- Claim C10: the state-snapshot response never reveals any password:
its users array is the stored users with the password field removed,
and any two stored documents that differ only in users password values
produce the identical response (noninterference of passwords with the
snapshot output). -/
theorem claim_C10_state_hides_passwords :
    (∀ s : DataState, (stateResponse s).users = s.users.map scrubUser) ∧
    (∀ s1 s2 : DataState,
      s1.branches = s2.branches →
      usersAgreeExceptPassword s1.users s2.users →
      s1.items = s2.items → s1.movements = s2.movements →
      s1.budgets = s2.budgets → s1.requests = s2.requests →
      s1.trips = s2.trips → s1.vehicles = s2.vehicles →
      s1.vehicleReminders = s2.vehicleReminders →
      s1.carAssignments = s2.carAssignments →
      s1.carMaintenances = s2.carMaintenances →
      stateResponse s1 = stateResponse s2) := by
  constructor
  · intro s
    rfl
  · intro s1 s2 hbr hus hit hmv hbu hrq htr hvh hvr hca hcm
    unfold stateResponse
    rw [hbr, hit, hmv, hbu, hrq, htr, hvh, hvr, hca, hcm, scrub_map_eq hus]

def c10wUserA1 : User :=
  { id := "u1", name := "Admin", role := "admin", password := "secretA", branchId := none }

def c10wUserA2 : User :=
  { id := "u1", name := "Admin", role := "admin", password := "secretB", branchId := none }

def c10wState1 : DataState :=
  { branches := [], users := [c10wUserA1], items := [], movements := [],
    budgets := [], requests := [], trips := [], vehicles := [],
    vehicleReminders := [], carAssignments := [], carMaintenances := [] }

def c10wState2 : DataState :=
  { branches := [], users := [c10wUserA2], items := [], movements := [],
    budgets := [], requests := [], trips := [], vehicles := [],
    vehicleReminders := [], carAssignments := [], carMaintenances := [] }

/-- Claim C10 witness: two documents differing only in one user
password yield the identical snapshot response. -/
theorem claim_C10_witness : stateResponse c10wState1 = stateResponse c10wState2 :=
  claim_C10_state_hides_passwords.2 c10wState1 c10wState2 rfl
    (List.Forall₂.cons ⟨rfl, rfl, rfl, rfl⟩ List.Forall₂.nil)
    rfl rfl rfl rfl rfl rfl rfl rfl rfl
